import Mathlib

/-!
Verification development for the ingestion and consistency core of the
MeiliSearch embedded search/storage engine (`src/database/database.rs`).

Bytes are modelled as `List Nat`.  The key-value store, the blob delta
algebra, the schema codec and the `DatabaseView` internals are external
collaborators of the file under verification; where their code is not part
of the sources they are modelled from the specification, and each such
definition says so in its doc comment.
-/

/-- The reserved canonical-index key, the byte string of the fixed key that
`merge_indexes` accepts.  Modelled from the spec: the `DATA_INDEX` constant
lives in a sibling module; its value is the reserved, fixed index key. -/
def DATA_INDEX : List Nat := [100, 97, 116, 97, 45, 105, 110, 100, 101, 120]

/-- The reserved schema key.  Modelled from the spec: the `DATA_SCHEMA`
constant lives in a sibling module; it is reserved, fixed, and distinct
from `DATA_INDEX`. -/
def DATA_SCHEMA : List Nat := [100, 97, 116, 97, 45, 115, 99, 104, 101, 109, 97]

/-- An index fragment: an additive (`positive`) or subtractive (`negative`)
contribution to the canonical index.  Modelled from the spec: the `Blob`
type lives in `database::blob`; the index payload is abstracted as a finite
set of entries. -/
inductive Blob : Type
  | positive (entries : Finset Nat)
  | negative (entries : Finset Nat)
  deriving DecidableEq

/-- Modelled from the spec: the delta-algebra accumulator applies an
additive blob by inserting its entries and a subtractive blob by removing
its entries. -/
def applyBlob (acc : Finset Nat) : Blob → Finset Nat
  | .positive s => acc ∪ s
  | .negative s => acc \ s

/-- Modelled from the spec: `blob::OpBuilder`'s `merge` folds the pushed
blobs, in push order, through the accumulator starting from the empty
index, producing the payload of the merged (positive) blob. -/
def mergeBlobs (blobs : List Blob) : Finset Nat :=
  blobs.foldl applyBlob ∅

/-- Boolean strict-sortedness check on a byte list, used to make the
positive-payload codec injective with a canonical wire form. -/
def strictSorted : List Nat → Bool
  | [] => true
  | [_] => true
  | a :: b :: rest => decide (a < b) && strictSorted (b :: rest)

/-- Modelled from the spec: `bincode::serialize` of a positive-blob payload;
the canonical wire form is the strictly sorted list of entries. -/
def serializePositive (s : Finset Nat) : List Nat :=
  (List.range (s.sup id + 1)).filter (fun a => decide (a ∈ s))

/-- Modelled from the spec: `bincode::deserialize` of a positive-blob
payload; fails on bytes that are not a canonical (strictly sorted) wire
form. -/
def deserializePositive (bytes : List Nat) : Option (Finset Nat) :=
  if strictSorted bytes then some bytes.toFinset else none

/-- Modelled from the spec: `bincode::serialize` of a tagged `Blob`
(tag 0 = positive, tag 1 = negative, then the payload). -/
def serializeBlob : Blob → List Nat
  | .positive s => 0 :: serializePositive s
  | .negative s => 1 :: serializePositive s

/-- Modelled from the spec: `bincode::deserialize` of a tagged `Blob`;
fails on an unknown tag or a non-canonical payload. -/
def deserializeBlob : List Nat → Option Blob
  | 0 :: rest => (deserializePositive rest).map Blob.positive
  | 1 :: rest => (deserializePositive rest).map Blob.negative
  | _ => none

/-- Deserializes every operand in order; fails as soon as one operand is
not a valid serialized blob (the Rust loop panics at the first bad
operand). -/
def deserializeOperands : List (List Nat) → Option (List Blob)
  | [] => some []
  | bytes :: rest =>
    match deserializeBlob bytes, deserializeOperands rest with
    | some b, some bs => some (b :: bs)
    | _, _ => none

/-- Outcome of the merge operator: a returned value, or a process abort
(`panic` in the source — never an ordinary recoverable error). -/
inductive MergeOut : Type
  | ok (bytes : List Nat)
  | panic (msg : String)
  deriving DecidableEq

/-- Panic message of the wrong-key branch of `merge_indexes`. -/
def wrongKeyMessage : String :=
  "The merge operator only supports \"data-index\" merging"

/-- Panic message when the existing canonical value fails to deserialize. -/
def badIndexMessage : String :=
  "BUG: could not deserialize data-index"

/-- Panic message when an operand fails to deserialize. -/
def badBlobMessage : String :=
  "BUG: could not deserialize blob"

/-- The merge operator `merge_indexes` of `database.rs`: panics on any key
other than `DATA_INDEX`; deserializes the existing value (if present) as a
positive blob and pushes it first, then deserializes and pushes each
operand in presented order, merges, and returns the serialized merged
blob.  All failure paths are `panic`/`expect` in the source, hence
`MergeOut.panic`. -/
def merge_indexes (key : List Nat) (existing_value : Option (List Nat))
    (operands : List (List Nat)) : MergeOut :=
  if key ≠ DATA_INDEX then
    MergeOut.panic wrongKeyMessage
  else
    match existing_value with
    | some bytes =>
      match deserializePositive bytes with
      | none => MergeOut.panic badIndexMessage
      | some s =>
        match deserializeOperands operands with
        | none => MergeOut.panic badBlobMessage
        | some blobs =>
          MergeOut.ok (serializePositive (mergeBlobs (Blob.positive s :: blobs)))
    | none =>
      match deserializeOperands operands with
      | none => MergeOut.panic badBlobMessage
      | some blobs => MergeOut.ok (serializePositive (mergeBlobs blobs))

/-- The document schema.  Modelled from the spec: the schema definition and
its binary (de)serialization are an out-of-scope external collaborator;
the payload is abstracted as a natural number. -/
abbrev Schema : Type := Nat

/-- Modelled from the spec: `Schema::write_to_bin`, the binary encoding of
a schema (a tag byte then the payload). -/
def Schema.write_to_bin (s : Schema) : List Nat := [83, s]

/-- Error message of a failed schema decode. -/
def badSchemaMessage : String := "could not deserialize schema"

/-- Modelled from the spec: `Schema::read_from_bin`, which fails on bytes
that are not a valid encoded schema. -/
def Schema.read_from_bin : List Nat → Except String Schema
  | [83, s] => Except.ok s
  | _ => Except.error badSchemaMessage

/-- Inserts a binding into an association list, replacing any binding of
the same key. -/
def assocInsert (key val : List Nat) (l : List (List Nat × List Nat)) :
    List (List Nat × List Nat) :=
  (key, val) :: l.filter (fun kv => !(kv.1 == key))

/-- The key-value store behind the `DB` handle: the committed bindings,
plus the merge operands pending for the canonical index key, kept in the
order the store received them (insertion order).  Modelled from the spec's
store-adapter contract: ordered byte-key storage with a registered merge
operator for `DATA_INDEX`. -/
structure Store : Type where
  committed : List (List Nat × List Nat)
  pendingIndex : List (List Nat)
  deriving DecidableEq

/-- Point lookup of a committed binding. -/
def Store.getRaw (s : Store) (key : List Nat) : Option (List Nat) :=
  (s.committed.find? (fun kv => kv.1 == key)).map Prod.snd

/-- `db.put`: durable write of one committed binding. -/
def Store.put (s : Store) (key val : List Nat) : Store :=
  { s with committed := assocInsert key val s.committed }

/-- `db.ingest_external_file_optimized`: atomically incorporates the
records of a pre-built external file.  A record targeting `DATA_INDEX` is
a merge operand and is appended to the pending sequence; any other record
is a plain committed binding.  Modelled from the spec's store-adapter
contract (atomic external-file ingestion; canonical-index mutations go
through the merge operator only). -/
def Store.ingestRecords (s : Store) (records : List (List Nat × List Nat)) : Store :=
  records.foldl
    (fun st kv =>
      if kv.1 == DATA_INDEX then
        { st with pendingIndex := st.pendingIndex ++ [kv.2] }
      else
        { st with committed := assocInsert kv.1 kv.2 st.committed })
    s

/-- `db.compact_range(Some(DATA_INDEX), Some(DATA_INDEX))` as seen by the
store: forces the registered merge operator over the pending operands of
the canonical index key, synchronously.  When the merge operator returns a
value it becomes the sole committed canonical value and the pending
sequence empties; a panicking merge aborts the process (no state
transition is observable).  Modelled from the spec's store-adapter
contract for `compact_range`. -/
def Store.compactIndex (s : Store) : Store :=
  if s.pendingIndex.isEmpty then s
  else
    match merge_indexes DATA_INDEX (s.getRaw DATA_INDEX) s.pendingIndex with
    | MergeOut.ok bytes =>
      { committed := assocInsert DATA_INDEX bytes s.committed, pendingIndex := [] }
    | MergeOut.panic _ => s

/-- The immutable snapshot-bound read handle.  Modelled from the spec:
`DatabaseView` wraps one store snapshot (a point-in-time copy of the
committed state) and never changes after construction. -/
structure DatabaseView : Type where
  snapshot : Store
  deriving DecidableEq

/-- A view's point lookup, bound to its snapshot. -/
def DatabaseView.get (v : DatabaseView) (key : List Nat) : Option (List Nat) :=
  v.snapshot.getRaw key

/-- The `Database` of `database.rs`: the writable store handle (guarded by
the writer mutex in the source) and the atomically-swappable published
view. -/
structure Database : Type where
  db : Store
  view : DatabaseView
  deriving DecidableEq

/-- An update file.  Modelled from the spec: an opaque, already-built,
immutable bulk-load file with a move/copy flag (`can_be_moved`), a backing
path (`into_path_buf`) and its key-value records. -/
structure Update : Type where
  can_be_moved : Bool
  path : String
  records : List (List Nat × List Nat)
  deriving DecidableEq

/-- Failure oracle for the external collaborators of one call: each field,
when `some msg`, makes the corresponding fallible step fail with that
message (a poisoned writer lock, a store-level ingestion failure, a
`DatabaseView::new` failure, a store flush failure). -/
structure Env : Type where
  lockPoisoned : Option String
  ingestFails : Option String
  viewFails : Option String
  flushFails : Option String
  deriving DecidableEq

/-- A store operation performed on the shared store, recorded in call
order. -/
inductive Event : Type
  | registerMergeOp
  | openStore (createIfMissing : Bool)
  | putKey (key : List Nat)
  | ingestFile (movedFlag : Bool) (path : String)
  | compactRange (first last : Option (List Nat))
  | takeSnapshot
  | storeFlush
  deriving DecidableEq

/-- `Database::create` error message for an existing path. -/
def alreadyExistsMessage (path : String) : String :=
  "File already exists at path: " ++ path ++ ", cannot create database."

/-- `Database::open` error message when the store lacks a schema entry. -/
def noSchemaMessage : String := "Database does not contain a schema"

/-- Store-level error message when opening a missing path with
`create_if_missing(false)`. -/
def missingPathMessage : String := "Invalid argument: does not exist"

/-- `Database::create`: fails without touching the store when a file
already exists at `path`; otherwise creates the store with the merge
operator registered, writes the schema entry, takes the first snapshot and
constructs the first view.  The filesystem is an association of paths to
stores; the result carries the outcome, the updated filesystem and the
trace of store operations performed. -/
def Database.create (fs : List (String × Store)) (path : String) (schema : Schema) :
    Except String Database × List (String × Store) × List Event :=
  if (fs.lookup path).isSome then
    (Except.error (alreadyExistsMessage path), fs, [])
  else
    let st : Store := Store.mk [] []
    let st := st.put DATA_SCHEMA (Schema.write_to_bin schema)
    (Except.ok (Database.mk st (DatabaseView.mk st)),
     (path, st) :: fs,
     [Event.registerMergeOp, Event.openStore true, Event.putKey DATA_SCHEMA,
      Event.takeSnapshot])

/-- `Database::open`: opens the existing store at `path` with the merge
operator registered (failing if no store exists there), reads back the
schema entry — failing when it is absent or does not decode — and
constructs the initial view from a fresh snapshot. -/
def Database.openDb (fs : List (String × Store)) (path : String) :
    Except String Database × List Event :=
  match fs.lookup path with
  | none =>
    (Except.error missingPathMessage, [Event.registerMergeOp, Event.openStore false])
  | some st =>
    match st.getRaw DATA_SCHEMA with
    | none =>
      (Except.error noSchemaMessage, [Event.registerMergeOp, Event.openStore false])
    | some bytes =>
      match Schema.read_from_bin bytes with
      | Except.error e =>
        (Except.error e, [Event.registerMergeOp, Event.openStore false])
      | Except.ok _ =>
        (Except.ok (Database.mk st (DatabaseView.mk st)),
         [Event.registerMergeOp, Event.openStore false, Event.takeSnapshot])

/-- `Database::ingest_update_file`: under the writer lock, ingests the
update's backing file (move or copy per its flag), forces the compaction
of the canonical index key, and takes a fresh snapshot; after releasing
the lock it constructs a new view from the snapshot and atomically swaps
the published view pointer — the swap is the very last step.  Every error
returns immediately with the published view untouched.  Returns the
outcome, the resulting database state and the trace of store operations
performed. -/
def Database.ingest_update_file (env : Env) (upd : Update) (d : Database) :
    Except String Unit × Database × List Event :=
  match env.lockPoisoned with
  | some msg => (Except.error msg, d, [])
  | none =>
    match env.ingestFails with
    | some msg =>
      (Except.error msg, d, [Event.ingestFile upd.can_be_moved upd.path])
    | none =>
      let afterIngest := d.db.ingestRecords upd.records
      let afterCompact := afterIngest.compactIndex
      let trace := [Event.ingestFile upd.can_be_moved upd.path,
                    Event.compactRange (some DATA_INDEX) (some DATA_INDEX),
                    Event.takeSnapshot]
      match env.viewFails with
      | some msg => (Except.error msg, Database.mk afterCompact d.view, trace)
      | none =>
        (Except.ok (), Database.mk afterCompact (DatabaseView.mk afterCompact), trace)

/-- `Database::get`: delegates to the currently published view. -/
def Database.get (d : Database) (key : List Nat) : Option (List Nat) :=
  d.view.get key

/-- `Database::flush`: under the writer lock, asks the store to durably
persist buffered writes; a lock-acquisition failure is returned as an
ordinary error with the lock failure's message and performs no store
operation. -/
def Database.flush (env : Env) (d : Database) :
    Except String Unit × Database × List Event :=
  match env.lockPoisoned with
  | some msg => (Except.error msg, d, [])
  | none =>
    match env.flushFails with
    | some msg => (Except.error msg, d, [Event.storeFlush])
    | none => (Except.ok (), d, [Event.storeFlush])

/-! ### Codec round-trip lemmas -/

theorem strictSorted_of_sorted_lt : ∀ {l : List Nat}, l.Sorted (· < ·) → strictSorted l = true
  | [], _ => rfl
  | [_], _ => rfl
  | a :: b :: rest, h => by
    rw [List.sorted_cons] at h
    have hab : a < b := h.1 b (by simp)
    have hrest := strictSorted_of_sorted_lt h.2
    simp [strictSorted, hab, hrest]

theorem sorted_lt_serializePositive (s : Finset Nat) :
    (serializePositive s).Sorted (· < ·) :=
  (List.sorted_lt_range _).filter _

theorem toFinset_serializePositive (s : Finset Nat) :
    (serializePositive s).toFinset = s := by
  ext a
  simp only [serializePositive, List.mem_toFinset, List.mem_filter, List.mem_range,
    decide_eq_true_eq]
  refine ⟨fun h => h.2, fun h => ⟨Nat.lt_succ_of_le ?_, h⟩⟩
  exact @Finset.le_sup Nat Nat _ _ s id a h

theorem deserializePositive_serializePositive (s : Finset Nat) :
    deserializePositive (serializePositive s) = some s := by
  simp [deserializePositive, strictSorted_of_sorted_lt (sorted_lt_serializePositive s),
    toFinset_serializePositive]

theorem deserializeBlob_serializeBlob (b : Blob) :
    deserializeBlob (serializeBlob b) = some b := by
  cases b <;> simp [serializeBlob, deserializeBlob, deserializePositive_serializePositive]

theorem deserializeOperands_map_serializeBlob :
    ∀ l : List Blob, deserializeOperands (l.map serializeBlob) = some l
  | [] => rfl
  | b :: rest => by
    simp only [List.map_cons, deserializeOperands, deserializeBlob_serializeBlob,
      deserializeOperands_map_serializeBlob rest]

theorem mergeBlobs_cons_positive (s : Finset Nat) (l : List Blob) :
    mergeBlobs (Blob.positive s :: l) = l.foldl applyBlob s := by
  simp [mergeBlobs, applyBlob]

theorem merge_indexes_ok_none (l : List Blob) :
    merge_indexes DATA_INDEX none (l.map serializeBlob) =
      MergeOut.ok (serializePositive (mergeBlobs l)) := by
  simp [merge_indexes, deserializeOperands_map_serializeBlob]

theorem merge_indexes_ok_some (s : Finset Nat) (l : List Blob) :
    merge_indexes DATA_INDEX (some (serializePositive s)) (l.map serializeBlob) =
      MergeOut.ok (serializePositive (l.foldl applyBlob s)) := by
  simp [merge_indexes, deserializePositive_serializePositive,
    deserializeOperands_map_serializeBlob, mergeBlobs_cons_positive]

example :
    merge_indexes DATA_INDEX none
      [serializeBlob (Blob.positive {1, 2}), serializeBlob (Blob.negative {1})] =
    MergeOut.ok [2] := by decide

example :
    merge_indexes DATA_INDEX (some (serializePositive {1, 2}))
      [serializeBlob (Blob.negative {2})] =
    MergeOut.ok [1] := by decide

example : merge_indexes [] none [] = MergeOut.panic wrongKeyMessage := by decide

/-! ### Claims about the merge operator -/

/-- C5: for every key other than the canonical index key, `merge_indexes`
aborts fatally with the wrong-key panic and never returns a value; under
the precondition that the key is the canonical index key, the wrong-key
abort branch is unreachable. -/
theorem merge_indexes_key_guard (key : List Nat) (existing : Option (List Nat))
    (operands : List (List Nat)) :
    (key ≠ DATA_INDEX → merge_indexes key existing operands = MergeOut.panic wrongKeyMessage) ∧
    (key = DATA_INDEX → merge_indexes key existing operands ≠ MergeOut.panic wrongKeyMessage) := by
  constructor
  · intro h
    simp [merge_indexes, h]
  · intro h
    subst h
    have hne : ¬DATA_INDEX ≠ DATA_INDEX := by simp
    unfold merge_indexes
    rw [if_neg hne]
    repeat' split
    all_goals first | decide | simp

theorem merge_indexes_key_guard_witness :
    ([] : List Nat) ≠ DATA_INDEX ∧
    merge_indexes [] none [] = MergeOut.panic wrongKeyMessage :=
  ⟨by decide, (merge_indexes_key_guard [] none []).1 (by decide)⟩

/-- C3: at the canonical index key, `merge_indexes` deserializes the
existing value (if present) as a positive blob, deserializes each operand
as a blob, feeds them into the accumulator in order — existing value
first, then the operands in presented order — and returns the
serialization of the single merged blob. -/
theorem merge_indexes_feeds_in_order (existing : Option (Finset Nat)) (ops : List Blob) :
    merge_indexes DATA_INDEX (existing.map serializePositive) (ops.map serializeBlob) =
      MergeOut.ok (serializePositive
        (mergeBlobs ((existing.map Blob.positive).toList ++ ops))) := by
  cases existing with
  | none => simpa using merge_indexes_ok_none ops
  | some s => simpa [mergeBlobs_cons_positive] using merge_indexes_ok_some s ops

/-- C4: merging blobs `[B1, ..., Bn]` in one pass yields the same canonical
serialized result as first merging `[B1..Bk]` and then merging the
intermediate result, fed back as the existing value, with `[Bk+1..Bn]`,
for every split point `1 ≤ k < n`. -/
theorem merge_indexes_convergence (ops : List Blob) (k : Nat)
    (_hk1 : 1 ≤ k) (_hk2 : k < ops.length) :
    merge_indexes DATA_INDEX none ((ops.take k).map serializeBlob) =
      MergeOut.ok (serializePositive (mergeBlobs (ops.take k))) ∧
    merge_indexes DATA_INDEX (some (serializePositive (mergeBlobs (ops.take k))))
        ((ops.drop k).map serializeBlob) =
      merge_indexes DATA_INDEX none (ops.map serializeBlob) := by
  constructor
  · exact merge_indexes_ok_none (ops.take k)
  · rw [merge_indexes_ok_some, merge_indexes_ok_none ops]
    congr 2
    conv_rhs => rw [mergeBlobs, ← List.take_append_drop k ops, List.foldl_append]
    rfl

theorem merge_indexes_convergence_witness :
    1 ≤ 1 ∧ 1 < ([Blob.positive {1, 2}, Blob.negative {1}] : List Blob).length ∧
    (merge_indexes DATA_INDEX none
        (([Blob.positive {1, 2}, Blob.negative {1}].take 1).map serializeBlob) =
      MergeOut.ok (serializePositive
        (mergeBlobs ([Blob.positive {1, 2}, Blob.negative {1}].take 1))) ∧
    merge_indexes DATA_INDEX
        (some (serializePositive (mergeBlobs ([Blob.positive {1, 2}, Blob.negative {1}].take 1))))
        (([Blob.positive {1, 2}, Blob.negative {1}].drop 1).map serializeBlob) =
      merge_indexes DATA_INDEX none
        (([Blob.positive {1, 2}, Blob.negative {1}] : List Blob).map serializeBlob)) :=
  ⟨by decide, by decide,
    merge_indexes_convergence [Blob.positive {1, 2}, Blob.negative {1}] 1
      (by decide) (by decide)⟩

/-! ### Sample inputs used by the witnesses -/

/-- A sample message carried by a poisoned writer lock. -/
def lockMsg : String := "poisoned lock"

/-- A sample path of an update's backing file. -/
def updPath : String := "update.sst"

/-- A sample database path. -/
def dbPath : String := "rocksdb.rdb"

/-- The empty store. -/
def storeEmpty : Store := Store.mk [] []

/-- A store holding bytes at the schema key that are not a valid encoded
schema. -/
def storeBadSchema : Store := Store.mk [(DATA_SCHEMA, [9])] []

/-- An environment in which every external step succeeds. -/
def envOk : Env := Env.mk none none none none

/-- An environment whose writer lock is poisoned. -/
def envPoisoned : Env := Env.mk (some lockMsg) none none none

/-- An environment in which the store-level file ingestion fails. -/
def envIngestFail : Env := Env.mk none (some lockMsg) none none

/-- An environment in which the view construction fails. -/
def envViewFail : Env := Env.mk none none (some lockMsg) none

/-- A sample update: one document record plus one canonical-index blob
operand. -/
def updSample : Update :=
  Update.mk true updPath [([7], [5]), (DATA_INDEX, serializeBlob (Blob.positive {3}))]

/-- A sample database over the empty store. -/
def dbSample : Database := Database.mk storeEmpty (DatabaseView.mk storeEmpty)

/-! ### Claims about the Database operations -/

/-- C1: whenever `ingest_update_file` returns an error — a lock-acquisition
failure, a file-ingestion failure or a view-construction failure — the
published current view is unchanged: every subsequent `view()` and `get()`
observes exactly the view published before the failed call; the pointer
swap, being the last step, never happens on an error path. -/
theorem ingest_error_leaves_view (env : Env) (upd : Update) (d : Database) (e : String)
    (h : (Database.ingest_update_file env upd d).1 = Except.error e) :
    ((Database.ingest_update_file env upd d).2.1).view = d.view ∧
    (∀ key, ((Database.ingest_update_file env upd d).2.1).get key = d.get key) := by
  obtain ⟨lp, igf, vf, ff⟩ := env
  cases lp <;> cases igf <;> cases vf <;>
    simp_all [Database.ingest_update_file, Database.get]

theorem ingest_error_leaves_view_witness :
    (Database.ingest_update_file envViewFail updSample dbSample).1 = Except.error lockMsg ∧
    ((Database.ingest_update_file envViewFail updSample dbSample).2.1).view = dbSample.view ∧
    (∀ key,
      (Database.ingest_update_file envViewFail updSample dbSample).2.1.get key =
        dbSample.get key) :=
  ⟨rfl,
    (ingest_error_leaves_view envViewFail updSample dbSample lockMsg rfl).1,
    (ingest_error_leaves_view envViewFail updSample dbSample lockMsg rfl).2⟩

/-- C2: once `ingest_update_file` returns successfully, the published view
is the one constructed from the snapshot taken after both the external
file ingestion and the forced compaction, so every subsequent `view()` and
`get()` observes the ingested data; a view obtained before the call keeps
answering from its own pre-ingestion snapshot. -/
theorem ingest_success_postcondition (env : Env) (upd : Update) (d : Database)
    (h : (Database.ingest_update_file env upd d).1 = Except.ok ()) :
    ((Database.ingest_update_file env upd d).2.1).view =
      DatabaseView.mk ((d.db.ingestRecords upd.records).compactIndex) ∧
    (∀ key, ((Database.ingest_update_file env upd d).2.1).get key =
      ((d.db.ingestRecords upd.records).compactIndex).getRaw key) ∧
    (∀ key, d.view.get key = d.view.snapshot.getRaw key) := by
  obtain ⟨lp, igf, vf, ff⟩ := env
  cases lp <;> cases igf <;> cases vf <;>
    simp_all [Database.ingest_update_file, Database.get, DatabaseView.get]

theorem ingest_success_postcondition_witness :
    (Database.ingest_update_file envOk updSample dbSample).1 = Except.ok () ∧
    ((Database.ingest_update_file envOk updSample dbSample).2.1).view =
      DatabaseView.mk ((dbSample.db.ingestRecords updSample.records).compactIndex) ∧
    (∀ key, (Database.ingest_update_file envOk updSample dbSample).2.1.get key =
      ((dbSample.db.ingestRecords updSample.records).compactIndex).getRaw key) ∧
    (∀ key, dbSample.view.get key = dbSample.view.snapshot.getRaw key) :=
  ⟨rfl,
    (ingest_success_postcondition envOk updSample dbSample rfl).1,
    (ingest_success_postcondition envOk updSample dbSample rfl).2.1,
    (ingest_success_postcondition envOk updSample dbSample rfl).2.2⟩

/-- C8: in every successful `ingest_update_file` call the store operations
are, in order: the external-file ingestion, then the forced range
compaction scoped exactly to the canonical index key (start key = end key
= `DATA_INDEX`), then the snapshot — so the merge operator runs during
ingestion, not lazily at a later read or compaction. -/
theorem ingest_success_trace (env : Env) (upd : Update) (d : Database)
    (h : (Database.ingest_update_file env upd d).1 = Except.ok ()) :
    (Database.ingest_update_file env upd d).2.2 =
      [Event.ingestFile upd.can_be_moved upd.path,
       Event.compactRange (some DATA_INDEX) (some DATA_INDEX),
       Event.takeSnapshot] := by
  obtain ⟨lp, igf, vf, ff⟩ := env
  cases lp <;> cases igf <;> cases vf <;>
    simp_all [Database.ingest_update_file]

theorem ingest_success_trace_witness :
    (Database.ingest_update_file envOk updSample dbSample).1 = Except.ok () ∧
    (Database.ingest_update_file envOk updSample dbSample).2.2 =
      [Event.ingestFile updSample.can_be_moved updSample.path,
       Event.compactRange (some DATA_INDEX) (some DATA_INDEX),
       Event.takeSnapshot] :=
  ⟨rfl, ingest_success_trace envOk updSample dbSample rfl⟩

/-- C9: when acquiring the writer-serialization lock fails, both
`ingest_update_file` and `flush` return an ordinary error carrying the
lock failure's message, leave the database untouched and perform no store
operation. -/
theorem lock_failure_surfaced (env : Env) (upd : Update) (d : Database) (msg : String)
    (h : env.lockPoisoned = some msg) :
    Database.ingest_update_file env upd d = (Except.error msg, d, []) ∧
    Database.flush env d = (Except.error msg, d, []) := by
  obtain ⟨lp, igf, vf, ff⟩ := env
  simp only at h
  subst h
  simp [Database.ingest_update_file, Database.flush]

theorem lock_failure_surfaced_witness :
    envPoisoned.lockPoisoned = some lockMsg ∧
    Database.ingest_update_file envPoisoned updSample dbSample =
      (Except.error lockMsg, dbSample, []) ∧
    Database.flush envPoisoned dbSample = (Except.error lockMsg, dbSample, []) :=
  ⟨rfl,
    (lock_failure_surfaced envPoisoned updSample dbSample lockMsg rfl).1,
    (lock_failure_surfaced envPoisoned updSample dbSample lockMsg rfl).2⟩

/-- C6: `create` at a path where a store already exists returns the
already-exists error, leaves the filesystem (and so the existing store's
data) unchanged, and performs no store operation at all — no open, no
write, no merge-operator registration. -/
theorem create_existing_path_fails (fs : List (String × Store)) (path : String)
    (schema : Schema) (st : Store) (h : fs.lookup path = some st) :
    (Database.create fs path schema).1 = Except.error (alreadyExistsMessage path) ∧
    (Database.create fs path schema).2.1 = fs ∧
    (Database.create fs path schema).2.2 = [] := by
  simp [Database.create, h]

theorem create_existing_path_fails_witness :
    ([(dbPath, storeBadSchema)].lookup dbPath = some storeBadSchema) ∧
    ((Database.create [(dbPath, storeBadSchema)] dbPath 0).1 =
      Except.error (alreadyExistsMessage dbPath) ∧
    (Database.create [(dbPath, storeBadSchema)] dbPath 0).2.1 = [(dbPath, storeBadSchema)] ∧
    (Database.create [(dbPath, storeBadSchema)] dbPath 0).2.2 = []) :=
  ⟨rfl, create_existing_path_fails [(dbPath, storeBadSchema)] dbPath 0 storeBadSchema rfl⟩

/-- C7: `open` on a store that holds no value at the reserved schema key
returns the missing-schema error and constructs no database — in
particular no snapshot is taken and no view is published. -/
theorem open_missing_schema_fails (fs : List (String × Store)) (path : String)
    (st : Store) (h1 : fs.lookup path = some st)
    (h2 : st.getRaw DATA_SCHEMA = none) :
    (Database.openDb fs path).1 = Except.error noSchemaMessage ∧
    (Database.openDb fs path).2 = [Event.registerMergeOp, Event.openStore false] := by
  simp [Database.openDb, h1, h2]

theorem open_missing_schema_fails_witness :
    ([(dbPath, storeEmpty)].lookup dbPath = some storeEmpty) ∧
    storeEmpty.getRaw DATA_SCHEMA = none ∧
    ((Database.openDb [(dbPath, storeEmpty)] dbPath).1 = Except.error noSchemaMessage ∧
    (Database.openDb [(dbPath, storeEmpty)] dbPath).2 =
      [Event.registerMergeOp, Event.openStore false]) :=
  ⟨rfl, rfl, open_missing_schema_fails [(dbPath, storeEmpty)] dbPath storeEmpty rfl rfl⟩

/-- C10: `open` fails not only when the schema entry is absent but also
when a schema entry is present yet does not deserialize: the decode error
is returned and no database is constructed. -/
theorem open_invalid_schema_fails (fs : List (String × Store)) (path : String)
    (st : Store) (bytes : List Nat) (e : String)
    (h1 : fs.lookup path = some st)
    (h2 : st.getRaw DATA_SCHEMA = some bytes)
    (h3 : Schema.read_from_bin bytes = Except.error e) :
    (Database.openDb fs path).1 = Except.error e := by
  simp [Database.openDb, h1, h2, h3]

theorem open_invalid_schema_fails_witness :
    ([(dbPath, storeBadSchema)].lookup dbPath = some storeBadSchema) ∧
    storeBadSchema.getRaw DATA_SCHEMA = some [9] ∧
    Schema.read_from_bin [9] = Except.error badSchemaMessage ∧
    (Database.openDb [(dbPath, storeBadSchema)] dbPath).1 =
      Except.error badSchemaMessage :=
  ⟨rfl, rfl, rfl,
    open_invalid_schema_fails [(dbPath, storeBadSchema)] dbPath storeBadSchema [9]
      badSchemaMessage rfl rfl rfl⟩
